import Mathlib

set_option maxHeartbeats 1000000

/-!
A shallow embedding of the ETL export core of the Plateforme repository
(`utils/etl_utils.py` and `app_pages/transform.py`).

Data frames are modelled as a list of column names plus a list of rows of
cells; pandas scalar values are modelled by the `Cell` type: missing value
(NaN/NA), integer, non-integral numeric (a pandas float that is not a whole
number, kept as an exact decimal `mantissa * 10 ^ (-exp)`), or text.
`pd.to_numeric(..., errors='coerce')` is modelled by `toNumericCell`
(numeric parse, failures become null); `.astype('Int64')` on a column
holding a non-integral numeric raises in pandas ("cannot safely cast
non-equivalent float64 to int64"), which the per-transformation
`try/except` of `apply_transformations` turns into "skip this
transformation for this batch" — modelled by the `isFrac` guard in
`applyOneTransform`.  CSV files are modelled as a list of records
(`FileLines`); the single output path of one export call is modelled as
`Option FileLines` (`none` = the file does not exist).
-/

namespace Etl

/-- A scalar value held by one cell of a data chunk: missing (NaN/NA),
integer, non-integral numeric (value `num * 10 ^ (-exp)`, only built for
values that are not whole numbers), or text. -/
inductive Cell
  | null
  | intV (n : Int)
  | decV (num : Int) (exp : Nat)
  | strV (s : String)
deriving DecidableEq, Repr

abbrev Row := List Cell

/-- A pandas DataFrame: column names plus rows of cells. -/
structure DataFrame where
  columns : List String
  rows : List Row
deriving DecidableEq, Repr

/-- `df.empty`: true when the frame has no rows or no columns. -/
def DataFrame.isEmptyDf (df : DataFrame) : Bool :=
  df.rows.isEmpty || df.columns.isEmpty

/-- Whether a cell is the missing value. -/
def Cell.isNull : Cell → Bool
  | .null => true
  | _ => false

/-- Whether a cell holds a non-integral numeric value (a pandas float that
`astype('Int64')` cannot safely cast). -/
def Cell.isFrac : Cell → Bool
  | .decV _ _ => true
  | _ => false

/-- Value of the digit string `ds` (digits only). -/
def digitsToNat (ds : List Char) : Nat :=
  ds.foldl (fun a c => a * 10 + (c.toNat - 48)) 0

/-- Strip leading and trailing whitespace from a character list. -/
def trimChars (cs : List Char) : List Char :=
  ((cs.dropWhile Char.isWhitespace).reverse.dropWhile Char.isWhitespace).reverse

/-- Numeric parse of a string, as performed by `pd.to_numeric`: optional
surrounding whitespace, optional sign, decimal digits, optional fractional
part.  Returns the mantissa and the number of fractional digits (the value
is `mantissa * 10 ^ (-exp)`), or `none` when the string is not numeric. -/
def parseNum (s : String) : Option (Int × Nat) :=
  let t := trimChars s.toList
  let (sgn, body) :=
    match t with
    | '-' :: rest => ((-1 : Int), rest)
    | '+' :: rest => ((1 : Int), rest)
    | _ => ((1 : Int), t)
  let intPart := body.takeWhile Char.isDigit
  let rest := body.dropWhile Char.isDigit
  match rest with
  | [] =>
    if intPart.isEmpty then none
    else some (sgn * (digitsToNat intPart : Int), 0)
  | '.' :: fracRest =>
    let fracPart := fracRest.takeWhile Char.isDigit
    if ¬ (fracRest.dropWhile Char.isDigit).isEmpty then none
    else if intPart.isEmpty && fracPart.isEmpty then none
    else some (sgn * (digitsToNat (intPart ++ fracPart) : Int), fracPart.length)
  | _ => none

/-- Build the cell for a parsed numeric value `m * 10 ^ (-e)`: a whole
number becomes an integer cell, anything else a non-integral numeric. -/
def decToCell (m : Int) (e : Nat) : Cell :=
  if m % ((10 : Int) ^ e) = 0 then .intV (m / ((10 : Int) ^ e)) else .decV m e

/-- `pd.to_numeric(value, errors='coerce')` on one cell: numbers pass
through, text is parsed, parse failures and missing values become null. -/
def toNumericCell : Cell → Cell
  | .null => .null
  | .intV n => .intV n
  | .decV m e => .decV m e
  | .strV s =>
    match parseNum s with
    | some (m, e) => decToCell m e
    | none => .null

/-- Textual form of a non-integral numeric value (deterministic rendering
of the pandas float). -/
def renderDec (m : Int) (e : Nat) : String :=
  toString m ++ "e-" ++ toString e

/-- `astype(str)` on one cell: every value becomes text; a missing value
becomes the literal text "nan". -/
def castStrCell : Cell → Cell
  | .null => .strV "nan"
  | .intV n => .strV (toString n)
  | .decV m e => .strV (renderDec m e)
  | .strV s => .strV s

/-- `fillna(v)` on one cell: missing values are replaced by the literal
fill string, everything else is unchanged. -/
def fillCell (v : String) (c : Cell) : Cell :=
  if c.isNull then .strV v else c

/-- Replace the cell at position `j` of a row by `f` of it; rows shorter
than `j` are unchanged. -/
def updateAt (j : Nat) (f : Cell → Cell) : Row → Row
  | [] => []
  | x :: xs =>
    match j with
    | 0 => f x :: xs
    | j + 1 => x :: updateAt j f xs

/-- The cell at position `j` of a row (null when out of range). -/
def cellAt (j : Nat) (r : Row) : Cell := r.getD j .null

/-- One transformation directive, as built by the UI: a dict with keys
`type`, `column`, `value` (default the empty string) and `dtype`
(default "str"). -/
structure Transform where
  ttype : String
  column : String
  value : String := ""
  dtype : String := "str"
deriving DecidableEq, Repr

/-- One iteration of the loop body of `apply_transformations`
(etl_utils.py lines 147-182): skip when the column is absent; `fill_na`
replaces nulls by the fill value; `type_cast` to `int` runs the numeric
coercion and then the nullable-integer conversion — which raises when any
coerced value is a non-integral numeric, and the surrounding `except`
then leaves the column untransformed; `type_cast` to `float` is the
numeric coercion; `type_cast` to `str` stringifies every cell; any other
type or dtype leaves the frame unchanged. -/
def applyOneTransform (t : Transform) (df : DataFrame) : DataFrame :=
  if ¬ df.columns.contains t.column then df
  else if t.ttype = "fill_na" then
    { df with rows := df.rows.map (updateAt (df.columns.indexOf t.column) (fillCell t.value)) }
  else if t.ttype = "type_cast" then
    if t.dtype = "int" then
      if df.rows.any (fun r => (toNumericCell (cellAt (df.columns.indexOf t.column) r)).isFrac) then df
      else { df with rows := df.rows.map (updateAt (df.columns.indexOf t.column) toNumericCell) }
    else if t.dtype = "float" then
      { df with rows := df.rows.map (updateAt (df.columns.indexOf t.column) toNumericCell) }
    else if t.dtype = "str" then
      { df with rows := df.rows.map (updateAt (df.columns.indexOf t.column) castStrCell) }
    else df
  else df

/-- `apply_transformations(df, transformations, table_name)`: fold every
directive over the frame, each one wrapped so that problems skip only that
directive. -/
def apply_transformations (df : DataFrame) (transformations : List Transform) :
    DataFrame :=
  transformations.foldl (fun d t => applyOneTransform t d) df

/-- Textual form of one cell in the output file (missing values are
written as the empty field). -/
def renderCell : Cell → String
  | .null => ""
  | .intV n => toString n
  | .decV m e => renderDec m e
  | .strV s => s

/-- One CSV record for one row. -/
def renderRow (r : Row) : String :=
  String.intercalate "," (r.map renderCell)

/-- The CSV header record for a column-name list. -/
def headerLine (cols : List String) : String :=
  String.intercalate "," cols

/-- The records of a CSV file, in order. -/
abbrev FileLines := List String

/-- `df.to_csv(..., index=False, header=header)`: the records written for
one frame. -/
def dfCsvLines (df : DataFrame) (header : Bool) : FileLines :=
  (if header then [headerLine df.columns] else []) ++ df.rows.map renderRow

/-- The distinct terminations of `transform_and_export`: the function
returns a bare bool, but each `return False` site emits a distinct
warning/error message (no columns mapped / column count mismatch / no
valid columns), so the failure kind is observable. -/
inductive ExportStatus
  | ok
  | noColumnsMapped
  | columnCountMismatch
  | noValidColumns
deriving DecidableEq, Repr

/-- The truthiness of the returned status: the Python function returns
`True` exactly on the `ok` outcome. -/
def ExportStatus.toBool : ExportStatus → Bool
  | .ok => true
  | _ => false

/-- The chunk loop of `transform_and_export` (etl_utils.py lines 91-126),
carrying `first_chunk`, `total_rows` and the state of the output file: an
empty first chunk writes a header-only file and returns; an empty later
chunk is skipped; a non-empty chunk is transformed, renamed to the
surviving target columns, and written (creating the file with a header for
the first chunk, appending without a header afterwards); after the loop, a
zero total row count writes a header-only file.  The loop itself always
returns success. -/
def exportLoop (vtc : List String) (ts : List Transform) :
    List DataFrame → Bool → Nat → Option FileLines → ExportStatus × Option FileLines
  | [], _, total, fs =>
    if total = 0 then (.ok, some [headerLine vtc]) else (.ok, fs)
  | df :: rest, first, total, fs =>
    if df.isEmptyDf then
      if first then (.ok, some [headerLine vtc])
      else exportLoop vtc ts rest first total fs
    else
      let df1 := if ts.isEmpty then df else apply_transformations df ts
      let df2 : DataFrame := { columns := vtc, rows := df1.rows }
      let fs' := if first then some (dfCsvLines df2 true)
                 else some (fs.getD [] ++ dfCsvLines df2 false)
      exportLoop vtc ts rest false (total + df2.rows.length) fs'

/-- Projection of one source row onto the selected source columns, as the
`SELECT col1, col2, ... FROM table` query does. -/
def selectRow (actual valid : List String) (r : Row) : Row :=
  valid.map (fun c => cellAt (actual.indexOf c) r)

/-- Fuel-driven splitting of a row list into consecutive batches of
`max 1 cs` rows; the fuel is an upper bound on the number of rows, so the
first pattern is never hit from `chunkRows`. -/
def chunkRowsAux (cs : Nat) : Nat → List Row → List (List Row)
  | 0, _ => []
  | _, [] => []
  | fuel + 1, r :: rs =>
    (r :: rs).take (max 1 cs) :: chunkRowsAux cs fuel ((r :: rs).drop (max 1 cs))

/-- `pd.read_sql(query, engine, chunksize=cs)`: the query result split
into consecutive batches of `cs` rows (the last batch may be smaller); an
empty result yields no batches. -/
def chunkRows (cs : Nat) (rows : List Row) : List (List Row) :=
  chunkRowsAux cs rows.length rows

/-- A source table as seen through the connection: its introspected column
names and its rows (each row aligned with `actualColumns`). -/
structure Table where
  actualColumns : List String
  rows : List Row
deriving Repr

/-- The (source, target) column pairs that survive validation: positional
pairing of `columns` with `target_columns`, keeping exactly the pairs whose
source column is among the table's introspected columns (etl_utils.py
lines 42-52). -/
def survivingPairs (tbl : Table) (columns target_columns : List String) :
    List (String × String) :=
  (columns.zip target_columns).filter (fun p => tbl.actualColumns.contains p.1)

/-- `transform_and_export(engine, table_name, columns, target_columns,
output_path, transformations, chunk_size)` (etl_utils.py lines 9-131):
empty `columns` fails (no columns mapped); a source/target length mismatch
fails (column count mismatch); each (source, target) pair survives exactly
when the source column is among the table's introspected columns, and zero
survivors fail (no valid columns); otherwise the surviving source columns
are selected from the table in chunks and streamed to the output file by
`exportLoop`.  The returned file state is the input state on every failure
path (nothing has been written). -/
def transform_and_export (tbl : Table) (columns target_columns : List String)
    (transformations : List Transform) (chunk_size : Nat)
    (fs : Option FileLines) : ExportStatus × Option FileLines :=
  if columns.isEmpty then (.noColumnsMapped, fs)
  else if columns.length ≠ target_columns.length then (.columnCountMismatch, fs)
  else
    let pairs := survivingPairs tbl columns target_columns
    let validColumns := pairs.map Prod.fst
    let validTargets := pairs.map Prod.snd
    if validColumns.isEmpty then (.noValidColumns, fs)
    else
      let chunks := (chunkRows chunk_size
        (tbl.rows.map (selectRow tbl.actualColumns validColumns))).map
        (fun rs => { columns := validColumns, rows := rs })
      exportLoop validTargets transformations chunks true 0 fs

/-- Split a character list at every separator (Python `split` semantics:
the empty list yields one empty field). -/
def splitChars (sep : Char) : List Char → List (List Char)
  | [] => [[]]
  | c :: rest =>
    let r := splitChars sep rest
    if c = sep then [] :: r
    else
      match r with
      | [] => [[c]]
      | g :: gs => (c :: g) :: gs

/-- The column names read from a CSV header record. -/
def splitHeader (line : String) : List String :=
  (splitChars ',' line.toList).map String.mk

/-- Python `set(a) == set(b)` on string lists. -/
def setEqL (a b : List String) : Bool :=
  a.all (b.contains ·) && b.all (a.contains ·)

/-- Python `set(a) - set(b)` on string lists: the members of `a` absent
from `b`, first occurrences only. -/
def setDiffL (a b : List String) : List String :=
  (a.filter (fun c => ¬ b.contains c)).eraseDups

/-- The dict returned by `validate_export_file`. -/
structure ValidationResult where
  valid : Bool
  message : String
  row_count : Nat
  column_count : Nat
deriving DecidableEq, Repr

/-- `validate_export_file(file_path, expected_columns)` (etl_utils.py
lines 220-263): read failures (missing file, or a file with nothing to
parse) yield an invalid result carrying the error text; otherwise the
header's column set is compared (as a set) with the expected columns,
yielding a summary message when equal and a message listing the missing
and extra columns when not.  Nothing is raised to the caller. -/
def validate_export_file (file : Option FileLines) (expected_columns : List String) :
    ValidationResult :=
  match file with
  | none =>
    { valid := false, message := "Error reading file: file not found",
      row_count := 0, column_count := 0 }
  | some [] =>
    { valid := false, message := "Error reading file: no columns to parse from file",
      row_count := 0, column_count := 0 }
  | some (h :: rest) =>
    let actual := splitHeader h
    if setEqL actual expected_columns then
      { valid := true,
        message := "File valid: " ++ toString rest.length ++ " rows, " ++
          toString actual.length ++ " columns",
        row_count := rest.length, column_count := actual.length }
    else
      { valid := false,
        message := "Column mismatch. Missing: " ++
          toString (setDiffL expected_columns actual) ++ ", Extra: " ++
          toString (setDiffL actual expected_columns),
        row_count := rest.length, column_count := actual.length }

/-- The run-level outcome reported at the end of `perform_bulk_export`
(transform.py lines 170-183): the all-success message, the mixed-success
warning, or the nothing-exported error. -/
inductive RunOutcome
  | allSucceeded
  | partialSuccess
  | allFailed
deriving DecidableEq, Repr

/-- Whether one table of a bulk run ends in success: it is skipped because
it is already exported (and re-export is not forced), or its export call
returns success.  `exportOk` abstracts the outcome of the engine call for
the table (exceptions raised during orchestration count as failure). -/
def tableSucceeds (exportOk : String → Bool) (csvPaths : List String)
    (force : Bool) (t : String) : Bool :=
  (!force && csvPaths.contains t) || exportOk t

/-- One iteration of the loop of `perform_bulk_export` (transform.py lines
121-165), acting on the pair (successful count, failed-table list): an
already-exported table is skipped and counted successful unless re-export
is forced; otherwise the engine is invoked and the table is counted
successful or appended to the failure list. -/
def bulkStep (exportOk : String → Bool) (csvPaths : List String) (force : Bool)
    (acc : Nat × List String) (t : String) : Nat × List String :=
  if !force && csvPaths.contains t then (acc.1 + 1, acc.2)
  else if exportOk t then (acc.1 + 1, acc.2)
  else (acc.1, acc.2 ++ [t])

/-- The per-table loop of `perform_bulk_export`: the successful-export
count and the failed-table list over the whole input set. -/
def perform_bulk_export (exportOk : String → Bool) (csvPaths : List String)
    (force : Bool) (tables : List String) : Nat × List String :=
  tables.foldl (bulkStep exportOk csvPaths force) (0, [])

/-- The final status branch of `perform_bulk_export`: all-success when the
successful count equals the table count, partial success when it is
positive but smaller, and the nothing-exported error otherwise. -/
def runOutcome (successful total : Nat) : RunOutcome :=
  if successful = total then .allSucceeded
  else if successful > 0 then .partialSuccess
  else .allFailed

/-- The run-level outcome of one bulk export over `tables`. -/
def bulkOutcome (exportOk : String → Bool) (csvPaths : List String)
    (force : Bool) (tables : List String) : RunOutcome :=
  runOutcome (perform_bulk_export exportOk csvPaths force tables).1 tables.length

/-- The CSV records produced for one batch of selected rows: the batch is
transformed and every row rendered as one record. -/
def chunkLines (vc : List String) (ts : List Transform) (rs : List Row) :
    FileLines :=
  (apply_transformations ⟨vc, rs⟩ ts).rows.map renderRow

/-- The cell-level action of one directive, for directives other than the
nullable-integer cast (whose action is not cell-local). -/
def cellFn (t : Transform) : Cell → Cell :=
  if t.ttype = "fill_na" then fillCell t.value
  else if t.ttype = "type_cast" then
    if t.dtype = "float" then toNumericCell
    else if t.dtype = "str" then castStrCell
    else id
  else id

/-- The row-level action of one directive over the column list `cols`. -/
def stepRow (cols : List String) (t : Transform) (r : Row) : Row :=
  if cols.contains t.column then updateAt (cols.indexOf t.column) (cellFn t) r
  else r

/-- The row-level action of a whole directive list. -/
def rowTransform (cols : List String) (ts : List Transform) (r : Row) : Row :=
  ts.foldl (fun r t => stepRow cols t r) r

/-- Whether a directive list contains no cast to the nullable integer
type (the one directive whose action is not cell-local, because the cast
raises on whole columns containing a non-integral numeric). -/
def noIntCast (ts : List Transform) : Bool :=
  ts.all (fun t => ¬ (t.ttype = "type_cast" && t.dtype = "int"))

end Etl

namespace Etl

/-- Updating a row with the identity function changes nothing. -/
theorem updateAt_id (j : Nat) (r : Row) : updateAt j (fun c => c) r = r := by
  induction r generalizing j with
  | nil => cases j <;> rfl
  | cons x xs ih =>
    cases j with
    | zero => rfl
    | succ j => simp [updateAt, ih]

/-- Updating a row preserves its length. -/
theorem updateAt_length (j : Nat) (f : Cell → Cell) (r : Row) :
    (updateAt j f r).length = r.length := by
  induction r generalizing j with
  | nil => cases j <;> rfl
  | cons x xs ih =>
    cases j with
    | zero => rfl
    | succ j => simp [updateAt, ih]

/-- One directive never changes the column names of a frame. -/
theorem applyOneTransform_columns (t : Transform) (df : DataFrame) :
    (applyOneTransform t df).columns = df.columns := by
  unfold applyOneTransform
  repeat' split
  all_goals rfl


/-- One directive never changes the number of rows of a frame. -/
theorem applyOneTransform_rows_length (t : Transform) (df : DataFrame) :
    (applyOneTransform t df).rows.length = df.rows.length := by
  unfold applyOneTransform
  repeat' split
  all_goals simp

/-- A directive list never changes the column names of a frame. -/
theorem apply_transformations_columns (ts : List Transform) (df : DataFrame) :
    (apply_transformations df ts).columns = df.columns := by
  induction ts generalizing df with
  | nil => rfl
  | cons t ts ih =>
    calc (apply_transformations df (t :: ts)).columns
        = (apply_transformations (applyOneTransform t df) ts).columns := rfl
      _ = (applyOneTransform t df).columns := ih _
      _ = df.columns := applyOneTransform_columns t df

/-- A directive list never changes the number of rows of a frame. -/
theorem apply_transformations_rows_length (ts : List Transform) (df : DataFrame) :
    (apply_transformations df ts).rows.length = df.rows.length := by
  induction ts generalizing df with
  | nil => rfl
  | cons t ts ih =>
    calc (apply_transformations df (t :: ts)).rows.length
        = (apply_transformations (applyOneTransform t df) ts).rows.length := rfl
      _ = (applyOneTransform t df).rows.length := ih _
      _ = df.rows.length := applyOneTransform_rows_length t df

/-- The chunk loop always reports success. -/
theorem exportLoop_status (vtc : List String) (ts : List Transform)
    (chunks : List DataFrame) (first : Bool) (total : Nat)
    (fs : Option FileLines) :
    (exportLoop vtc ts chunks first total fs).1 = .ok := by
  induction chunks generalizing first total fs with
  | nil =>
    unfold exportLoop
    split <;> rfl
  | cons df rest ih =>
    unfold exportLoop
    split
    · split
      · rfl
      · exact ih ..
    · exact ih ..

/-- Flattening the batches of `chunkRowsAux` recovers the row list, as
long as the fuel bounds the number of rows. -/
theorem chunkRowsAux_flatten (cs : Nat) :
    ∀ (fuel : Nat) (rows : List Row), rows.length ≤ fuel →
      (chunkRowsAux cs fuel rows).flatten = rows := by
  intro fuel
  induction fuel with
  | zero =>
    intro rows h
    have : rows = [] := List.eq_nil_of_length_eq_zero (Nat.le_zero.mp h)
    subst this
    rfl
  | succ fuel ih =>
    intro rows h
    cases rows with
    | nil => rfl
    | cons r rs =>
      have hm : 1 ≤ max 1 cs := Nat.le_max_left 1 cs
      have hlen : ((r :: rs).drop (max 1 cs)).length ≤ fuel := by
        rw [List.length_drop]
        simp only [List.length_cons] at h ⊢
        omega
      simp only [chunkRowsAux, List.flatten_cons, ih _ hlen]
      exact List.take_append_drop _ _

/-- Flattening the batches recovers the selected rows. -/
theorem chunkRows_flatten (cs : Nat) (rows : List Row) :
    (chunkRows cs rows).flatten = rows :=
  chunkRowsAux_flatten cs rows.length rows (Nat.le_refl _)

/-- Every batch produced by `chunkRowsAux` is non-empty. -/
theorem chunkRowsAux_ne_nil (cs : Nat) :
    ∀ (fuel : Nat) (rows : List Row), ∀ c ∈ chunkRowsAux cs fuel rows, c ≠ [] := by
  intro fuel
  induction fuel with
  | zero => intro rows c hc; simp [chunkRowsAux] at hc
  | succ fuel ih =>
    intro rows c hc
    cases rows with
    | nil => simp [chunkRowsAux] at hc
    | cons r rs =>
      simp only [chunkRowsAux, List.mem_cons] at hc
      rcases hc with h | h
      · subst h
        have hm : 1 ≤ max 1 cs := Nat.le_max_left 1 cs
        have : 0 < ((r :: rs).take (max 1 cs)).length := by
          rw [List.length_take]
          simp only [List.length_cons]
          omega
        exact List.ne_nil_of_length_pos this
      · exact ih _ c h

/-- Every batch produced by `chunkRows` is non-empty. -/
theorem chunkRows_ne_nil (cs : Nat) (rows : List Row) :
    ∀ c ∈ chunkRows cs rows, c ≠ [] :=
  chunkRowsAux_ne_nil cs rows.length rows

/-- A non-empty row list produces at least one batch. -/
theorem chunkRows_ne_nil_of_rows (cs : Nat) (rows : List Row) (h : rows ≠ []) :
    chunkRows cs rows ≠ [] := by
  cases rows with
  | nil => exact absurd rfl h
  | cons r rs => simp [chunkRows, chunkRowsAux]

/-- An empty row list produces no batches. -/
theorem chunkRows_nil (cs : Nat) : chunkRows cs [] = [] := rfl

end Etl

namespace Etl

/-- The guarded transformation application of the chunk loop is plain
application (no directives means nothing to apply). -/
theorem apply_transformations_ite (ts : List Transform) (df : DataFrame) :
    (if ts.isEmpty then df else apply_transformations df ts) =
      apply_transformations df ts := by
  cases ts <;> simp [apply_transformations]

/-- The chunk loop on no batches writes the header-only file. -/
theorem exportLoop_nil_zero (vtc : List String) (ts : List Transform)
    (fs : Option FileLines) :
    exportLoop vtc ts [] true 0 fs = (.ok, some [headerLine vtc]) := rfl

/-- The chunk loop on one empty first batch writes the header-only file. -/
theorem exportLoop_empty_first (vtc vc : List String) (ts : List Transform)
    (fs : Option FileLines) :
    exportLoop vtc ts [{ columns := vc, rows := [] }] true 0 fs =
      (.ok, some [headerLine vtc]) := by
  unfold exportLoop
  rw [if_pos (by simp [DataFrame.isEmptyDf])]
  rfl

/-- Runs of the chunk loop past the first batch append the rendered
transformed rows of every remaining non-empty batch. -/
theorem exportLoop_false_out (vtc : List String) (ts : List Transform) :
    ∀ (chunks : List DataFrame) (total : Nat) (L : FileLines), 0 < total →
      (∀ c ∈ chunks, c.isEmptyDf = false) →
      exportLoop vtc ts chunks false total (some L) =
        (.ok, some (L ++
          (chunks.map (fun c => (apply_transformations c ts).rows.map renderRow)).flatten)) := by
  intro chunks
  induction chunks with
  | nil =>
    intro total L ht _
    unfold exportLoop
    rw [if_neg (by omega)]
    simp
  | cons df rest ih =>
    intro total L ht hne
    have hdf : df.isEmptyDf = false := hne df (List.mem_cons_self df rest)
    unfold exportLoop
    rw [if_neg (by simp [hdf])]
    simp only [apply_transformations_ite, Bool.false_eq_true, if_false,
      Option.getD_some, dfCsvLines]
    rw [ih (total + (apply_transformations df ts).rows.length) _
      (by omega) (fun c hc => hne c (List.mem_cons_of_mem df hc))]
    simp [List.flatten_cons, List.append_assoc]

/-- A run of the chunk loop over non-empty batches creates the file with
the header record followed by the rendered transformed rows of every
batch, in order. -/
theorem exportLoop_true_out (vtc : List String) (ts : List Transform)
    (chunks : List DataFrame) (fs : Option FileLines) (hne : chunks ≠ [])
    (h : ∀ c ∈ chunks, c.isEmptyDf = false) :
    exportLoop vtc ts chunks true 0 fs =
      (.ok, some (headerLine vtc ::
        (chunks.map (fun c => (apply_transformations c ts).rows.map renderRow)).flatten)) := by
  cases chunks with
  | nil => exact absurd rfl hne
  | cons df rest =>
    have hdf : df.isEmptyDf = false := h df (List.mem_cons_self df rest)
    have hrows : df.rows ≠ [] := by
      simp only [DataFrame.isEmptyDf, Bool.or_eq_false_iff] at hdf
      exact List.isEmpty_eq_false.mp hdf.1
    have hpos : 0 < (apply_transformations df ts).rows.length := by
      rw [apply_transformations_rows_length]
      exact List.length_pos.mpr hrows
    unfold exportLoop
    rw [if_neg (by simp [hdf])]
    simp only [apply_transformations_ite, if_true, dfCsvLines]
    rw [exportLoop_false_out vtc ts rest _ _ (by omega)
      (fun c hc => h c (List.mem_cons_of_mem df hc))]
    simp [List.flatten_cons]

/-- The records of one batch are one per source row of the batch. -/
theorem chunkLines_length (vc : List String) (ts : List Transform)
    (rs : List Row) : (chunkLines vc ts rs).length = rs.length := by
  simp [chunkLines, apply_transformations_rows_length]

/-- Rendering all batches yields one record per selected row. -/
theorem flatten_chunkLines_length (vc : List String) (ts : List Transform) :
    ∀ pieces : List (List Row),
      ((pieces.map (chunkLines vc ts)).flatten).length = pieces.flatten.length := by
  intro pieces
  induction pieces with
  | nil => rfl
  | cons p ps ih =>
    simp [List.flatten_cons, chunkLines_length, ih]

end Etl

namespace Etl

/-- Every export call that passes validation succeeds and (re)creates the
output file as the header record for the surviving target columns followed
by the rendered transformed rows of every batch. -/
theorem transform_and_export_out (tbl : Table) (columns target_columns : List String)
    (ts : List Transform) (cs : Nat) (fs : Option FileLines)
    (h1 : columns ≠ []) (h2 : columns.length = target_columns.length)
    (h3 : survivingPairs tbl columns target_columns ≠ []) :
    transform_and_export tbl columns target_columns ts cs fs =
      (.ok, some (headerLine ((survivingPairs tbl columns target_columns).map Prod.snd) ::
        ((chunkRows cs (tbl.rows.map (selectRow tbl.actualColumns
            ((survivingPairs tbl columns target_columns).map Prod.fst)))).map
          (chunkLines ((survivingPairs tbl columns target_columns).map Prod.fst) ts)).flatten)) := by
  have hvc : (survivingPairs tbl columns target_columns).map Prod.fst ≠ [] := by
    simp only [ne_eq, List.map_eq_nil_iff]
    exact h3
  unfold transform_and_export
  rw [if_neg (by simp [h1]), if_neg (by omega)]
  rw [if_neg (by simp only [List.isEmpty_eq_true]; exact hvc)]
  by_cases hrows :
      tbl.rows.map (selectRow tbl.actualColumns
        ((survivingPairs tbl columns target_columns).map Prod.fst)) = []
  · rw [hrows]
    rw [show chunkRows cs [] = [] from rfl]
    simp only [List.map_nil, List.flatten_nil]
    exact exportLoop_nil_zero _ _ _
  · set vc := (survivingPairs tbl columns target_columns).map Prod.fst with hvcdef
    set selRows := tbl.rows.map (selectRow tbl.actualColumns vc) with hsel
    have hchunks : (chunkRows cs selRows).map
        (fun rs => ({ columns := vc, rows := rs } : DataFrame)) ≠ [] := by
      simp only [ne_eq, List.map_eq_nil_iff]
      exact chunkRows_ne_nil_of_rows cs selRows hrows
    have hmem : ∀ c ∈ (chunkRows cs selRows).map
        (fun rs => ({ columns := vc, rows := rs } : DataFrame)), c.isEmptyDf = false := by
      intro c hc
      rcases List.mem_map.mp hc with ⟨rs, hrs, hrfl⟩
      subst hrfl
      have : rs ≠ [] := chunkRows_ne_nil cs selRows rs hrs
      simp [DataFrame.isEmptyDf, List.isEmpty_eq_false, this, hvc]
    rw [exportLoop_true_out _ _ _ _ hchunks hmem]
    simp only [List.map_map]
    rfl

/-- A length mismatch between non-empty source columns and target columns
fails with the column-count-mismatch error and leaves the file untouched. -/
theorem transform_and_export_mismatch (tbl : Table) (columns target_columns : List String)
    (ts : List Transform) (cs : Nat) (fs : Option FileLines)
    (h1 : columns ≠ []) (h2 : columns.length ≠ target_columns.length) :
    transform_and_export tbl columns target_columns ts cs fs =
      (.columnCountMismatch, fs) := by
  unfold transform_and_export
  rw [if_neg (by simp [h1]), if_pos h2]

/-- Zero surviving pairs fail with the no-valid-columns error and leave
the file untouched. -/
theorem transform_and_export_no_valid (tbl : Table) (columns target_columns : List String)
    (ts : List Transform) (cs : Nat) (fs : Option FileLines)
    (h1 : columns ≠ []) (h2 : columns.length = target_columns.length)
    (h3 : survivingPairs tbl columns target_columns = []) :
    transform_and_export tbl columns target_columns ts cs fs =
      (.noValidColumns, fs) := by
  unfold transform_and_export
  rw [if_neg (by simp [h1]), if_neg (by omega)]
  rw [if_pos (by simp [h3])]

end Etl

namespace Etl

/-- A directive whose column is absent from the frame is skipped. -/
theorem applyOneTransform_absent (t : Transform) (df : DataFrame)
    (hc : df.columns.contains t.column = false) :
    applyOneTransform t df = df := by
  unfold applyOneTransform
  rw [if_pos (by simpa using hc)]

/-- Unfolding of a fill directive on a present column. -/
theorem applyOneTransform_fill (t : Transform) (df : DataFrame)
    (hc : df.columns.contains t.column = true) (hf : t.ttype = "fill_na") :
    applyOneTransform t df =
      { df with rows := List.map (updateAt (df.columns.indexOf t.column) (fillCell t.value)) df.rows } := by
  unfold applyOneTransform
  rw [if_neg (by simpa using hc), if_pos hf]

/-- A nullable-integer cast on a column whose coerced values include a
non-integral numeric raises, and the raised error is caught: the frame is
unchanged. -/
theorem applyOneTransform_int_raise (t : Transform) (df : DataFrame)
    (hc : df.columns.contains t.column = true) (htc : t.ttype = "type_cast")
    (hd : t.dtype = "int")
    (hfr : (df.rows.any (fun r =>
      (toNumericCell (cellAt (df.columns.indexOf t.column) r)).isFrac)) = true) :
    applyOneTransform t df = df := by
  unfold applyOneTransform
  rw [if_neg (by simpa using hc), if_neg (by rw [htc]; decide), if_pos htc, if_pos hd,
    if_pos hfr]

/-- A nullable-integer cast on a column whose coerced values are all
integral or null replaces every cell of the column by its coercion. -/
theorem applyOneTransform_int_ok (t : Transform) (df : DataFrame)
    (hc : df.columns.contains t.column = true) (htc : t.ttype = "type_cast")
    (hd : t.dtype = "int")
    (hfr : (df.rows.any (fun r =>
      (toNumericCell (cellAt (df.columns.indexOf t.column) r)).isFrac)) = false) :
    applyOneTransform t df =
      { df with rows := List.map (updateAt (df.columns.indexOf t.column) toNumericCell) df.rows } := by
  unfold applyOneTransform
  rw [if_neg (by simpa using hc), if_neg (by rw [htc]; decide), if_pos htc, if_pos hd,
    if_neg (by simp [hfr])]

/-- Unfolding of a float cast on a present column. -/
theorem applyOneTransform_float (t : Transform) (df : DataFrame)
    (hc : df.columns.contains t.column = true) (htc : t.ttype = "type_cast")
    (hd : t.dtype = "float") :
    applyOneTransform t df =
      { df with rows := List.map (updateAt (df.columns.indexOf t.column) toNumericCell) df.rows } := by
  unfold applyOneTransform
  rw [if_neg (by simpa using hc), if_neg (by rw [htc]; decide), if_pos htc,
    if_neg (by rw [hd]; decide), if_pos hd]

/-- Unfolding of a string cast on a present column. -/
theorem applyOneTransform_str (t : Transform) (df : DataFrame)
    (hc : df.columns.contains t.column = true) (htc : t.ttype = "type_cast")
    (hd : t.dtype = "str") :
    applyOneTransform t df =
      { df with rows := List.map (updateAt (df.columns.indexOf t.column) castStrCell) df.rows } := by
  unfold applyOneTransform
  rw [if_neg (by simpa using hc), if_neg (by rw [htc]; decide), if_pos htc,
    if_neg (by rw [hd]; decide), if_neg (by rw [hd]; decide), if_pos hd]

/-- A cast to an unknown dtype does nothing. -/
theorem applyOneTransform_other_dtype (t : Transform) (df : DataFrame)
    (htc : t.ttype = "type_cast") (h1 : ¬ t.dtype = "int")
    (h2 : ¬ t.dtype = "float") (h3 : ¬ t.dtype = "str") :
    applyOneTransform t df = df := by
  unfold applyOneTransform
  by_cases hc : df.columns.contains t.column = true
  · rw [if_neg (by simpa using hc), if_neg (by rw [htc]; decide), if_pos htc,
      if_neg h1, if_neg h2, if_neg h3]
  · rw [if_pos (by simpa using hc)]

/-- A directive of an unknown type does nothing. -/
theorem applyOneTransform_other_ttype (t : Transform) (df : DataFrame)
    (h1 : ¬ t.ttype = "fill_na") (h2 : ¬ t.ttype = "type_cast") :
    applyOneTransform t df = df := by
  unfold applyOneTransform
  by_cases hc : df.columns.contains t.column = true
  · rw [if_neg (by simpa using hc), if_neg h1, if_neg h2]
  · rw [if_pos (by simpa using hc)]

/-- The row action of a directive whose column is present is the cell
action at that column's position. -/
theorem stepRow_of_contains (t : Transform) (cols : List String)
    (hc : cols.contains t.column = true) :
    stepRow cols t = updateAt (cols.indexOf t.column) (cellFn t) := by
  funext r
  unfold stepRow
  rw [if_pos hc]

/-- The row action of a directive whose column is absent is the identity. -/
theorem stepRow_of_not_contains (t : Transform) (cols : List String)
    (hc : cols.contains t.column = false) :
    stepRow cols t = fun r => r := by
  funext r
  unfold stepRow
  rw [if_neg (by simpa using hc)]

/-- Rows are unchanged by a row action built from the identity cell
action. -/
theorem map_updateAt_id (j : Nat) (rows : List Row) :
    rows.map (updateAt j (id : Cell → Cell)) = rows := by
  induction rows with
  | nil => rfl
  | cons r rs ih =>
    simp only [List.map_cons, ih]
    congr 1
    exact updateAt_id j r

/-- Every directive other than the nullable-integer cast acts on a frame
row by row. -/
theorem applyOneTransform_rowwise (t : Transform) (cols : List String) (rows : List Row)
    (h : ¬ (t.ttype = "type_cast" ∧ t.dtype = "int")) :
    applyOneTransform t ⟨cols, rows⟩ = ⟨cols, rows.map (stepRow cols t)⟩ := by
  by_cases hc : cols.contains t.column = true
  · rw [stepRow_of_contains t cols hc]
    by_cases hf : t.ttype = "fill_na"
    · rw [applyOneTransform_fill t _ hc hf]
      have hcf : cellFn t = fillCell t.value := by unfold cellFn; rw [if_pos hf]
      rw [hcf]
    · by_cases htc : t.ttype = "type_cast"
      · have hnint : ¬ t.dtype = "int" := fun hd => h ⟨htc, hd⟩
        by_cases hfl : t.dtype = "float"
        · rw [applyOneTransform_float t _ hc htc hfl]
          have hcf : cellFn t = toNumericCell := by
            unfold cellFn
            rw [if_neg hf, if_pos htc, if_pos hfl]
          rw [hcf]
        · by_cases hstr : t.dtype = "str"
          · rw [applyOneTransform_str t _ hc htc hstr]
            have hcf : cellFn t = castStrCell := by
              unfold cellFn
              rw [if_neg hf, if_pos htc, if_neg hfl, if_pos hstr]
            rw [hcf]
          · rw [applyOneTransform_other_dtype t _ htc hnint hfl hstr]
            have hcf : cellFn t = id := by
              unfold cellFn
              rw [if_neg hf, if_pos htc, if_neg hfl, if_neg hstr]
            rw [hcf, map_updateAt_id]
      · rw [applyOneTransform_other_ttype t _ hf htc]
        have hcf : cellFn t = id := by
          unfold cellFn
          rw [if_neg hf, if_neg htc]
        rw [hcf, map_updateAt_id]
  · have hcf : cols.contains t.column = false := by
      cases hb : cols.contains t.column
      · rfl
      · exact absurd hb hc
    rw [applyOneTransform_absent t _ hcf, stepRow_of_not_contains t cols hcf,
      List.map_id']

/-- The row action of an empty directive list is the identity. -/
theorem rowTransform_nil (cols : List String) : rowTransform cols [] = fun r => r := by
  funext r
  rfl

/-- The row action of a directive list, head first. -/
theorem rowTransform_cons (cols : List String) (t : Transform) (ts : List Transform)
    (r : Row) : rowTransform cols (t :: ts) r = rowTransform cols ts (stepRow cols t r) :=
  rfl

/-- A directive list without a nullable-integer cast acts on a frame row
by row. -/
theorem apply_transformations_rowwise (ts : List Transform) (cols : List String)
    (rows : List Row) (h : noIntCast ts = true) :
    apply_transformations ⟨cols, rows⟩ ts = ⟨cols, rows.map (rowTransform cols ts)⟩ := by
  induction ts generalizing rows with
  | nil =>
    rw [rowTransform_nil, List.map_id']
    rfl
  | cons t ts ih =>
    have h' := h
    unfold noIntCast at h'
    rw [List.all_cons, Bool.and_eq_true] at h'
    have h1 : ¬ (t.ttype = "type_cast" ∧ t.dtype = "int") := by
      intro hb
      have hx := h'.1
      rw [hb.1, hb.2] at hx
      simp at hx
    have h2 : noIntCast ts = true := h'.2
    calc apply_transformations ⟨cols, rows⟩ (t :: ts)
        = apply_transformations (applyOneTransform t ⟨cols, rows⟩) ts := rfl
      _ = apply_transformations ⟨cols, rows.map (stepRow cols t)⟩ ts := by
          rw [applyOneTransform_rowwise t cols rows h1]
      _ = ⟨cols, (rows.map (stepRow cols t)).map (rowTransform cols ts)⟩ := ih _ h2
      _ = ⟨cols, rows.map (rowTransform cols (t :: ts))⟩ := by
          rw [List.map_map]
          rfl

/-- Without a nullable-integer cast, the records of one batch are the
per-row records of its rows. -/
theorem chunkLines_rowwise (vc : List String) (ts : List Transform)
    (h : noIntCast ts = true) (rs : List Row) :
    chunkLines vc ts rs = rs.map (fun r => renderRow (rowTransform vc ts r)) := by
  rw [chunkLines, apply_transformations_rowwise ts vc rs h]
  rw [List.map_map]
  rfl

/-- Without a nullable-integer cast, the data records of the output are
the per-row records of all selected rows — independent of the batching. -/
theorem flatten_chunkLines_rowwise (vc : List String) (ts : List Transform)
    (h : noIntCast ts = true) (cs : Nat) (rows : List Row) :
    ((chunkRows cs rows).map (chunkLines vc ts)).flatten =
      rows.map (fun r => renderRow (rowTransform vc ts r)) := by
  have hfun : chunkLines vc ts =
      List.map (fun r => renderRow (rowTransform vc ts r)) :=
    funext (chunkLines_rowwise vc ts h)
  calc ((chunkRows cs rows).map (chunkLines vc ts)).flatten
      = ((chunkRows cs rows).map
          (List.map (fun r => renderRow (rowTransform vc ts r)))).flatten := by
        rw [hfun]
    _ = ((chunkRows cs rows).flatten).map
          (fun r => renderRow (rowTransform vc ts r)) := (List.map_flatten _ _).symm
    _ = rows.map (fun r => renderRow (rowTransform vc ts r)) := by
        rw [chunkRows_flatten]

end Etl

namespace Etl

/-- Reading back the updated position of a row. -/
theorem cellAt_updateAt (j : Nat) (f : Cell → Cell) (r : Row) (h : j < r.length) :
    cellAt j (updateAt j f r) = f (cellAt j r) := by
  induction r generalizing j with
  | nil => simp at h
  | cons x xs ih =>
    cases j with
    | zero => rfl
    | succ j =>
      simp only [List.length_cons, Nat.succ_lt_succ_iff] at h
      exact ih j h

/-- Updating past the end of a row does nothing. -/
theorem updateAt_of_le_length (j : Nat) (f : Cell → Cell) (r : Row)
    (h : r.length ≤ j) : updateAt j f r = r := by
  induction r generalizing j with
  | nil => cases j <;> rfl
  | cons x xs ih =>
    cases j with
    | zero => simp at h
    | succ j =>
      simp only [List.length_cons, Nat.succ_le_succ_iff] at h
      simp [updateAt, ih j h]

/-- Updating a position whose cell is a fixed point of the function does
nothing. -/
theorem updateAt_fix (j : Nat) (f : Cell → Cell) (r : Row)
    (h : f (cellAt j r) = cellAt j r) : updateAt j f r = r := by
  induction r generalizing j with
  | nil => cases j <;> rfl
  | cons x xs ih =>
    cases j with
    | zero =>
      have : f x = x := h
      simp [updateAt, this]
    | succ j =>
      have : f (cellAt j xs) = cellAt j xs := h
      simp [updateAt, ih j this]

/-- The string cast always produces text. -/
theorem castStrCell_strV (c : Cell) : ∃ s, castStrCell c = .strV s := by
  cases c with
  | null => exact ⟨"nan", rfl⟩
  | intV n => exact ⟨toString n, rfl⟩
  | decV m e => exact ⟨renderDec m e, rfl⟩
  | strV s => exact ⟨s, rfl⟩

/-- The string cast never leaves a missing value. -/
theorem castStrCell_not_null (c : Cell) : (castStrCell c).isNull = false := by
  cases c <;> rfl

/-- The numeric coercion only produces missing, integer or non-integral
numeric cells. -/
theorem toNumericCell_shape (c : Cell) :
    toNumericCell c = .null ∨ (∃ n, toNumericCell c = .intV n) ∨
      ∃ m e, toNumericCell c = .decV m e := by
  cases c with
  | null => exact Or.inl rfl
  | intV n => exact Or.inr (Or.inl ⟨n, rfl⟩)
  | decV m e => exact Or.inr (Or.inr ⟨m, e, rfl⟩)
  | strV s =>
    cases hp : parseNum s with
    | none => exact Or.inl (by simp [toNumericCell, hp])
    | some p =>
      obtain ⟨m, e⟩ := p
      by_cases hm : m % ((10 : Int) ^ e) = 0
      · exact Or.inr (Or.inl ⟨m / ((10 : Int) ^ e),
          by simp [toNumericCell, hp, decToCell, hm]⟩)
      · exact Or.inr (Or.inr ⟨m, e, by simp [toNumericCell, hp, decToCell, hm]⟩)

/-- A parse failure coerces to the missing value. -/
theorem toNumericCell_of_parse_fail (s : String) (h : parseNum s = none) :
    toNumericCell (.strV s) = .null := by
  simp [toNumericCell, h]

/-- The check of `validate_export_file` is Python set equality of the
header's column set and the expected column set. -/
theorem setEqL_iff (a b : List String) :
    setEqL a b = true ↔ ∀ c, c ∈ a ↔ c ∈ b := by
  unfold setEqL
  rw [Bool.and_eq_true, List.all_eq_true, List.all_eq_true]
  constructor
  · rintro ⟨h1, h2⟩ c
    exact ⟨fun hc => List.elem_iff.mp (h1 c hc), fun hc => List.elem_iff.mp (h2 c hc)⟩
  · intro h
    exact ⟨fun c hc => List.elem_iff.mpr ((h c).mp hc),
      fun c hc => List.elem_iff.mpr ((h c).mpr hc)⟩

/-- One loop iteration of the bulk export counts a success exactly when
the table is skipped or its export succeeds, and otherwise appends the
table to the failure list. -/
theorem bulkStep_eq (exportOk : String → Bool) (csvPaths : List String)
    (force : Bool) (acc : Nat × List String) (t : String) :
    bulkStep exportOk csvPaths force acc t =
      if tableSucceeds exportOk csvPaths force t then (acc.1 + 1, acc.2)
      else (acc.1, acc.2 ++ [t]) := by
  unfold bulkStep tableSucceeds
  cases hb : (!force && csvPaths.contains t) with
  | true => simp [hb]
  | false =>
    cases hk : exportOk t with
    | true => simp [hb, hk]
    | false => simp [hb, hk]

/-- The bulk loop computes the number of succeeding tables and the list of
failing tables, in order. -/
theorem bulk_fold (exportOk : String → Bool) (csvPaths : List String) (force : Bool) :
    ∀ (tables : List String) (s0 : Nat) (f0 : List String),
      tables.foldl (bulkStep exportOk csvPaths force) (s0, f0) =
        (s0 + (tables.filter (tableSucceeds exportOk csvPaths force)).length,
         f0 ++ tables.filter (fun t => !(tableSucceeds exportOk csvPaths force t))) := by
  intro tables
  induction tables with
  | nil => intro s0 f0; simp
  | cons t ts ih =>
    intro s0 f0
    rw [List.foldl_cons, bulkStep_eq]
    cases hs : tableSucceeds exportOk csvPaths force t with
    | true =>
      rw [if_pos (by simp [hs]), ih]
      simp [List.filter_cons, hs]
      omega
    | false =>
      rw [if_neg (by simp [hs]), ih]
      simp [List.filter_cons, hs]

/-- The result of `perform_bulk_export` in closed form. -/
theorem perform_bulk_export_eq (exportOk : String → Bool) (csvPaths : List String)
    (force : Bool) (tables : List String) :
    perform_bulk_export exportOk csvPaths force tables =
      ((tables.filter (tableSucceeds exportOk csvPaths force)).length,
       tables.filter (fun t => !(tableSucceeds exportOk csvPaths force t))) := by
  unfold perform_bulk_export
  rw [bulk_fold]
  simp

/-- The success status of an export call does not depend on the
transformation list. -/
theorem transform_and_export_status_indep (tbl : Table)
    (columns target_columns : List String) (ts : List Transform) (cs : Nat)
    (fs : Option FileLines) :
    (transform_and_export tbl columns target_columns ts cs fs).1 =
      (transform_and_export tbl columns target_columns [] cs fs).1 := by
  unfold transform_and_export
  by_cases h1 : columns.isEmpty = true
  · rw [if_pos h1, if_pos h1]
  · rw [if_neg h1, if_neg h1]
    by_cases h2 : columns.length ≠ target_columns.length
    · rw [if_pos h2, if_pos h2]
    · rw [if_neg h2, if_neg h2]
      by_cases h3 : ((survivingPairs tbl columns target_columns).map Prod.fst).isEmpty = true
      · rw [if_pos h3, if_pos h3]
      · rw [if_neg h3, if_neg h3]
        rw [exportLoop_status, exportLoop_status]

end Etl

namespace Etl

/-- C1: every export call that reaches the write phase with at least one
non-empty batch succeeds and produces a file whose single header record
lists exactly the surviving target column names in their original request
order, followed by one data record per source row — the first batch
creates the file with the header, later batches append without repeating
it, and the data record count is the sum of all batch sizes (the total
number of table rows). -/
theorem claim_C1 (tbl : Table) (columns target_columns : List String)
    (ts : List Transform) (cs : Nat) (fs : Option FileLines)
    (h1 : columns ≠ []) (h2 : columns.length = target_columns.length)
    (h3 : survivingPairs tbl columns target_columns ≠ [])
    (h4 : tbl.rows ≠ []) :
    ∃ ds : FileLines,
      transform_and_export tbl columns target_columns ts cs fs =
        (.ok, some (headerLine
          ((survivingPairs tbl columns target_columns).map Prod.snd) :: ds)) ∧
      ds.length = tbl.rows.length := by
  refine ⟨_, transform_and_export_out tbl columns target_columns ts cs fs h1 h2 h3, ?_⟩
  rw [flatten_chunkLines_length, chunkRows_flatten, List.length_map]

/-- C1 witness: a three-row table exported in batches of two. -/
theorem claim_C1_witness :
    ∃ ds : FileLines,
      transform_and_export ⟨["a"], [[Cell.intV 1], [Cell.intV 2], [Cell.intV 3]]⟩
          ["a"] ["t"] [] 2 none =
        (.ok, some (headerLine
          ((survivingPairs ⟨["a"], [[Cell.intV 1], [Cell.intV 2], [Cell.intV 3]]⟩
            ["a"] ["t"]).map Prod.snd) :: ds)) ∧
      ds.length = 3 :=
  claim_C1 ⟨["a"], [[Cell.intV 1], [Cell.intV 2], [Cell.intV 3]]⟩ ["a"] ["t"] [] 2 none
    (by decide) (by decide) (by decide) (by decide)

/-- C2 counterexample: the output is NOT independent of the chunk size
when a nullable-integer cast is among the transformations.  The column
holds the texts "2.0" and "1.5"; with one-row batches the first batch is
cast (writing "2") while the second raises and stays "1.5"; with one
two-row batch the cast raises for the whole batch and both texts are
written unchanged. -/
theorem claim_C2_counterexample :
    transform_and_export ⟨["c"], [[Cell.strV "2.0"], [Cell.strV "1.5"]]⟩ ["c"] ["t"]
        [{ ttype := "type_cast", column := "c", dtype := "int" }] 1 none ≠
      transform_and_export ⟨["c"], [[Cell.strV "2.0"], [Cell.strV "1.5"]]⟩ ["c"] ["t"]
        [{ ttype := "type_cast", column := "c", dtype := "int" }] 2 none := by
  decide

/-- C2 (amended): for every source table and transformation list that
contains no nullable-integer cast (the one directive whose effect is not
row-local, because its conversion raises on whole batches), the export
result — status and full file content, hence also row count — is the same
for any two chunk sizes. -/
theorem claim_C2 (tbl : Table) (columns target_columns : List String)
    (ts : List Transform) (cs1 cs2 : Nat) (fs : Option FileLines)
    (h : noIntCast ts = true) :
    transform_and_export tbl columns target_columns ts cs1 fs =
      transform_and_export tbl columns target_columns ts cs2 fs := by
  by_cases h1 : columns = []
  · simp [transform_and_export, h1]
  · by_cases h2 : columns.length = target_columns.length
    · by_cases h3 : survivingPairs tbl columns target_columns = []
      · rw [transform_and_export_no_valid tbl columns target_columns ts cs1 fs h1 h2 h3,
          transform_and_export_no_valid tbl columns target_columns ts cs2 fs h1 h2 h3]
      · rw [transform_and_export_out tbl columns target_columns ts cs1 fs h1 h2 h3,
          transform_and_export_out tbl columns target_columns ts cs2 fs h1 h2 h3,
          flatten_chunkLines_rowwise _ _ h, flatten_chunkLines_rowwise _ _ h]
    · rw [transform_and_export_mismatch tbl columns target_columns ts cs1 fs h1 h2,
        transform_and_export_mismatch tbl columns target_columns ts cs2 fs h1 h2]

/-- C2 witness: a five-row table with a fill directive, batch sizes 2 and
1000. -/
theorem claim_C2_witness :
    transform_and_export
        ⟨["c"], [[Cell.null], [Cell.intV 2], [Cell.null], [Cell.intV 4], [Cell.intV 5]]⟩
        ["c"] ["t"] [{ ttype := "fill_na", column := "c", value := "X" }] 2 none =
      transform_and_export
        ⟨["c"], [[Cell.null], [Cell.intV 2], [Cell.null], [Cell.intV 4], [Cell.intV 5]]⟩
        ["c"] ["t"] [{ ttype := "fill_na", column := "c", value := "X" }] 1000 none :=
  claim_C2 ⟨["c"], [[Cell.null], [Cell.intV 2], [Cell.null], [Cell.intV 4], [Cell.intV 5]]⟩
    ["c"] ["t"] [{ ttype := "fill_na", column := "c", value := "X" }] 2 1000 none
    (by decide)

/-- C3: when the source table yields zero rows and some columns survive
validation, the export succeeds and the output file is exactly one header
record listing the surviving target column names, with zero data records;
the chunk loop converges to the same file whether the empty table shows up
as no batches at all or as one empty first batch. -/
theorem claim_C3 (tbl : Table) (columns target_columns : List String)
    (ts : List Transform) (cs : Nat) (fs : Option FileLines)
    (h0 : tbl.rows = []) (h1 : columns ≠ [])
    (h2 : columns.length = target_columns.length)
    (h3 : survivingPairs tbl columns target_columns ≠ []) :
    transform_and_export tbl columns target_columns ts cs fs =
      (.ok, some [headerLine
        ((survivingPairs tbl columns target_columns).map Prod.snd)]) ∧
    exportLoop ((survivingPairs tbl columns target_columns).map Prod.snd) ts
        [{ columns := (survivingPairs tbl columns target_columns).map Prod.fst,
           rows := [] }] true 0 fs =
      (.ok, some [headerLine
        ((survivingPairs tbl columns target_columns).map Prod.snd)]) := by
  constructor
  · rw [transform_and_export_out tbl columns target_columns ts cs fs h1 h2 h3]
    rw [h0]
    rfl
  · exact exportLoop_empty_first _ _ _ _

/-- C3 witness: an empty two-column table. -/
theorem claim_C3_witness :
    transform_and_export ⟨["a", "b"], []⟩ ["a", "b"] ["x", "y"] [] 10 none =
      (.ok, some [headerLine
        ((survivingPairs ⟨["a", "b"], []⟩ ["a", "b"] ["x", "y"]).map Prod.snd)]) ∧
    exportLoop ((survivingPairs ⟨["a", "b"], []⟩ ["a", "b"] ["x", "y"]).map Prod.snd) []
        [{ columns := (survivingPairs ⟨["a", "b"], []⟩ ["a", "b"] ["x", "y"]).map Prod.fst,
           rows := [] }] true 0 none =
      (.ok, some [headerLine
        ((survivingPairs ⟨["a", "b"], []⟩ ["a", "b"] ["x", "y"]).map Prod.snd)]) :=
  claim_C3 ⟨["a", "b"], []⟩ ["a", "b"] ["x", "y"] [] 10 none
    rfl (by decide) (by decide) (by decide)

/-- C4 counterexample: the claim is false for empty source columns — the
input `columns = []`, `target_columns = ["t"]` has differing lengths, but
the export fails with the earlier no-columns-mapped check, not with the
column-count mismatch. -/
theorem claim_C4_counterexample :
    transform_and_export ⟨["a"], [[Cell.intV 1]]⟩ [] ["t"] [] 10 none =
        (.noColumnsMapped, none) ∧
      ExportStatus.noColumnsMapped ≠ ExportStatus.columnCountMismatch := by
  decide

/-- C4 (amended): for every input with NON-EMPTY source columns whose
length differs from the target columns, the export fails with the
column-count mismatch and the output file state is returned untouched
(nothing is written); with empty source columns the earlier
no-columns-mapped check fires instead. -/
theorem claim_C4 (tbl : Table) (columns target_columns : List String)
    (ts : List Transform) (cs : Nat) (fs : Option FileLines)
    (h1 : columns ≠ []) (h2 : columns.length ≠ target_columns.length) :
    transform_and_export tbl columns target_columns ts cs fs =
      (.columnCountMismatch, fs) :=
  transform_and_export_mismatch tbl columns target_columns ts cs fs h1 h2

/-- C4 witness: one source column against two target columns, with and
without a pre-existing output file. -/
theorem claim_C4_witness :
    transform_and_export ⟨["a"], [[Cell.intV 1]]⟩ ["a"] ["t", "u"] [] 10 none =
        (.columnCountMismatch, none) ∧
      transform_and_export ⟨["a"], [[Cell.intV 1]]⟩ ["a"] ["t", "u"] [] 10
          (some ["old"]) =
        (.columnCountMismatch, some ["old"]) :=
  ⟨claim_C4 ⟨["a"], [[Cell.intV 1]]⟩ ["a"] ["t", "u"] [] 10 none
      (by decide) (by decide),
   claim_C4 ⟨["a"], [[Cell.intV 1]]⟩ ["a"] ["t", "u"] [] 10 (some ["old"])
      (by decide) (by decide)⟩

/-- C5: a (source, target) pair survives exactly when the source column is
among the table's introspected columns; if no pair survives the export
fails with the no-valid-columns error and the file state is untouched;
if some pairs survive the export succeeds (dropping is non-fatal) and the
output header lists exactly the surviving target names. -/
theorem claim_C5 (tbl : Table) (columns target_columns : List String)
    (ts : List Transform) (cs : Nat) (fs : Option FileLines)
    (h1 : columns ≠ []) (h2 : columns.length = target_columns.length) :
    (∀ p : String × String, p ∈ survivingPairs tbl columns target_columns ↔
      (p ∈ columns.zip target_columns ∧ p.1 ∈ tbl.actualColumns)) ∧
    (survivingPairs tbl columns target_columns = [] →
      transform_and_export tbl columns target_columns ts cs fs =
        (.noValidColumns, fs)) ∧
    (survivingPairs tbl columns target_columns ≠ [] →
      ∃ ds : FileLines,
        transform_and_export tbl columns target_columns ts cs fs =
          (.ok, some (headerLine
            ((survivingPairs tbl columns target_columns).map Prod.snd) :: ds))) := by
  refine ⟨?_, ?_, ?_⟩
  · intro p
    unfold survivingPairs
    rw [List.mem_filter]
    constructor
    · rintro ⟨hz, hcon⟩
      exact ⟨hz, List.elem_iff.mp hcon⟩
    · rintro ⟨hz, hmem⟩
      exact ⟨hz, List.elem_iff.mpr hmem⟩
  · intro h3
    exact transform_and_export_no_valid tbl columns target_columns ts cs fs h1 h2 h3
  · intro h3
    exact ⟨_, transform_and_export_out tbl columns target_columns ts cs fs h1 h2 h3⟩

/-- C5 witness: the scenario of the spec — requesting `[id, name, cost]`
from a table with columns `[id, name, price]` drops the `cost` pair and
exports the surviving two columns. -/
theorem claim_C5_witness :
    ((("cost", "prix_achat") ∈ survivingPairs
        ⟨["id", "name", "price"], [[Cell.intV 1, Cell.strV "a", Cell.intV 5]]⟩
        ["id", "name", "cost"] ["id_produit", "nom_produit", "prix_achat"]) ↔
      ((("cost", "prix_achat") ∈
          (["id", "name", "cost"].zip ["id_produit", "nom_produit", "prix_achat"])) ∧
        "cost" ∈ ["id", "name", "price"])) ∧
    (∃ ds : FileLines,
      transform_and_export
          ⟨["id", "name", "price"], [[Cell.intV 1, Cell.strV "a", Cell.intV 5]]⟩
          ["id", "name", "cost"] ["id_produit", "nom_produit", "prix_achat"] [] 10 none =
        (.ok, some (headerLine
          ((survivingPairs
            ⟨["id", "name", "price"], [[Cell.intV 1, Cell.strV "a", Cell.intV 5]]⟩
            ["id", "name", "cost"]
            ["id_produit", "nom_produit", "prix_achat"]).map Prod.snd) :: ds))) := by
  have h := claim_C5
    ⟨["id", "name", "price"], [[Cell.intV 1, Cell.strV "a", Cell.intV 5]]⟩
    ["id", "name", "cost"] ["id_produit", "nom_produit", "prix_achat"] [] 10 none
    (by decide) (by decide)
  exact ⟨h.1 ("cost", "prix_achat"), h.2.2 (by decide)⟩

end Etl

namespace Etl

/-- C6 counterexample: the claim fails when the column also holds a
non-integral numeric text — in `["abc", "1.5"]` the value "abc" fails
numeric parsing but does NOT become null, because the nullable-integer
conversion raises on "1.5" and the whole cast is skipped for the batch. -/
theorem claim_C6_counterexample :
    apply_transformations ⟨["c"], [[Cell.strV "abc"], [Cell.strV "1.5"]]⟩
        [{ ttype := "type_cast", column := "c", dtype := "int" }] =
      ⟨["c"], [[Cell.strV "abc"], [Cell.strV "1.5"]]⟩ ∧
    parseNum "abc" = none ∧ Cell.strV "abc" ≠ Cell.null := by
  decide

/-- C6 (amended): for a batch column whose numerically-coerced values
contain no non-integral numeric, the nullable-integer cast replaces every
cell by its coercion — values that fail numeric parsing become null, no
row is dropped (the row count is unchanged), and every resulting cell of
the column is null or an integer (nulls coexist with integers); when some
coerced value is non-integral the conversion raises and the whole cast is
skipped for the batch. -/
theorem claim_C6 (t : Transform) (df : DataFrame)
    (htc : t.ttype = "type_cast") (hd : t.dtype = "int")
    (hc : df.columns.contains t.column = true)
    (hfr : (df.rows.any (fun r =>
      (toNumericCell (cellAt (df.columns.indexOf t.column) r)).isFrac)) = false) :
    (applyOneTransform t df).rows =
      df.rows.map (updateAt (df.columns.indexOf t.column) toNumericCell) ∧
    (∀ s, parseNum s = none → toNumericCell (.strV s) = .null) ∧
    (∀ r ∈ df.rows,
      toNumericCell (cellAt (df.columns.indexOf t.column) r) = .null ∨
      ∃ n, toNumericCell (cellAt (df.columns.indexOf t.column) r) = .intV n) ∧
    (applyOneTransform t df).rows.length = df.rows.length := by
  refine ⟨?_, toNumericCell_of_parse_fail, ?_, applyOneTransform_rows_length t df⟩
  · rw [applyOneTransform_int_ok t df hc htc hd hfr]
  · intro r hr
    have hnofrac :
        (toNumericCell (cellAt (df.columns.indexOf t.column) r)).isFrac = false := by
      rw [List.any_eq_false] at hfr
      simpa using hfr r hr
    rcases toNumericCell_shape (cellAt (df.columns.indexOf t.column) r) with
      h | ⟨n, h⟩ | ⟨m, e, h⟩
    · exact Or.inl h
    · exact Or.inr ⟨n, h⟩
    · rw [h] at hnofrac
      simp [Cell.isFrac] at hnofrac

/-- C6 witness: the column `["1", "abc", "3"]` cast to int yields
`[1, null, 3]`. -/
theorem claim_C6_witness :
    (applyOneTransform { ttype := "type_cast", column := "c", dtype := "int" }
        ⟨["c"], [[Cell.strV "1"], [Cell.strV "abc"], [Cell.strV "3"]]⟩).rows =
      [[Cell.intV 1], [Cell.null], [Cell.intV 3]] ∧
    toNumericCell (.strV "abc") = .null := by
  have h := claim_C6 { ttype := "type_cast", column := "c", dtype := "int" }
    ⟨["c"], [[Cell.strV "1"], [Cell.strV "abc"], [Cell.strV "3"]]⟩
    rfl rfl (by decide) (by decide)
  exact ⟨h.1.trans (by decide), h.2.1 "abc" (by decide)⟩

/-- C7: a transformation whose column is absent from the batch is skipped
leaving the frame unchanged; a transformation whose application raises
(the nullable-integer cast on a column with a non-integral coerced value)
is skipped leaving the frame unchanged; and the success status of the
export call never depends on the transformation list. -/
theorem claim_C7 :
    (∀ (t : Transform) (df : DataFrame), df.columns.contains t.column = false →
      applyOneTransform t df = df) ∧
    (∀ (t : Transform) (df : DataFrame), t.ttype = "type_cast" → t.dtype = "int" →
      (df.rows.any (fun r =>
        (toNumericCell (cellAt (df.columns.indexOf t.column) r)).isFrac)) = true →
      applyOneTransform t df = df) ∧
    (∀ (tbl : Table) (columns target_columns : List String) (ts : List Transform)
      (cs : Nat) (fs : Option FileLines),
      (transform_and_export tbl columns target_columns ts cs fs).1 =
        (transform_and_export tbl columns target_columns [] cs fs).1) := by
  refine ⟨applyOneTransform_absent, ?_, transform_and_export_status_indep⟩
  intro t df htc hd hfr
  by_cases hc : df.columns.contains t.column = true
  · exact applyOneTransform_int_raise t df hc htc hd hfr
  · refine applyOneTransform_absent t df ?_
    cases hb : df.columns.contains t.column
    · rfl
    · exact absurd hb hc

/-- C7 witness: an absent-column fill is skipped, a raising int cast is
skipped, and an export with a transformation list has the same status as
the export without it. -/
theorem claim_C7_witness :
    applyOneTransform { ttype := "fill_na", column := "zz", value := "X" }
        ⟨["c"], [[Cell.null]]⟩ = ⟨["c"], [[Cell.null]]⟩ ∧
    applyOneTransform { ttype := "type_cast", column := "c", dtype := "int" }
        ⟨["c"], [[Cell.strV "1.5"]]⟩ = ⟨["c"], [[Cell.strV "1.5"]]⟩ ∧
    (transform_and_export ⟨["a"], [[Cell.intV 1]]⟩ ["a"] ["t"]
        [{ ttype := "type_cast", column := "a", dtype := "int" }] 10 none).1 =
      (transform_and_export ⟨["a"], [[Cell.intV 1]]⟩ ["a"] ["t"] [] 10 none).1 :=
  ⟨claim_C7.1 _ _ (by decide), claim_C7.2.1 _ _ rfl rfl (by decide),
    claim_C7.2.2 _ _ _ _ _ _⟩

/-- C8: on a readable file, validation succeeds exactly when the header's
column set equals the expected set (unordered), the row count is the
number of data records, the success message summarizes rows and columns,
and the failure message lists the missing and extra columns; a missing
file and a file with nothing to parse both yield an invalid result (the
error is carried in the result, never raised). -/
theorem claim_C8 (hdr : String) (rest : FileLines) (exp : List String) :
    ((validate_export_file (some (hdr :: rest)) exp).valid = true ↔
      ∀ c, c ∈ splitHeader hdr ↔ c ∈ exp) ∧
    (validate_export_file (some (hdr :: rest)) exp).row_count = rest.length ∧
    ((∀ c, c ∈ splitHeader hdr ↔ c ∈ exp) →
      (validate_export_file (some (hdr :: rest)) exp).message =
        "File valid: " ++ toString rest.length ++ " rows, " ++
          toString (splitHeader hdr).length ++ " columns") ∧
    ((¬ ∀ c, c ∈ splitHeader hdr ↔ c ∈ exp) →
      (validate_export_file (some (hdr :: rest)) exp).message =
        "Column mismatch. Missing: " ++ toString (setDiffL exp (splitHeader hdr)) ++
          ", Extra: " ++ toString (setDiffL (splitHeader hdr) exp)) ∧
    (validate_export_file none exp).valid = false ∧
    (validate_export_file (some []) exp).valid = false := by
  by_cases hs : setEqL (splitHeader hdr) exp = true
  · have hiff := (setEqL_iff _ _).mp hs
    simp only [validate_export_file]
    rw [if_pos hs]
    exact ⟨by simp [hiff], rfl, fun _ => rfl, fun hn => absurd hiff hn, trivial, trivial⟩
  · have hniff : ¬ ∀ c, c ∈ splitHeader hdr ↔ c ∈ exp :=
      fun hiff => hs ((setEqL_iff _ _).mpr hiff)
    simp only [validate_export_file]
    rw [if_neg hs]
    exact ⟨by simp [hniff], rfl, fun hif => absurd hif hniff, fun _ => rfl, trivial, trivial⟩

/-- C8 witness: a two-column file against the expected columns in another
order, plus a missing file. -/
theorem claim_C8_witness :
    (validate_export_file (some ["a,b", "1,2"]) ["b", "a"]).valid = true ∧
    (validate_export_file (some ["a,b", "1,2"]) ["b", "a"]).row_count = 1 ∧
    (validate_export_file (some ["a,b", "1,2"]) ["b", "a"]).message =
      "File valid: 1 rows, 2 columns" ∧
    (validate_export_file none ["b", "a"]).valid = false := by
  have h := claim_C8 "a,b" ["1,2"] ["b", "a"]
  have hiff : ∀ c, c ∈ splitHeader "a,b" ↔ c ∈ ["b", "a"] := by
    intro c
    rw [show splitHeader "a,b" = ["a", "b"] from by decide]
    simp [or_comm]
  exact ⟨h.1.mpr hiff, h.2.1, (h.2.2.1 hiff).trans (by decide), h.2.2.2.2.1⟩

end Etl

namespace Etl

/-- C9 counterexample: a bulk run over an empty table set is reported
through the all-success branch (0 of 0 exported counts as "all exported"),
i.e. as one of the three ordinary outcomes — there is no separate
nothing-to-do outcome in the code. -/
theorem claim_C9_counterexample :
    bulkOutcome (fun _ => false) [] false [] = RunOutcome.allSucceeded := by
  decide

/-- C9 (amended): the failed-table list names exactly the tables that
fail, in order; the outcome is the all-success branch exactly when every
table of the input set succeeds (vacuously so for the empty set — the
code has no separate nothing-to-do outcome), the all-failed branch
exactly when the set is non-empty and every table fails, and the
partial-success branch exactly when some table succeeds and some fails. -/
theorem claim_C9 (exportOk : String → Bool) (csvPaths : List String) (force : Bool)
    (tables : List String) :
    ((perform_bulk_export exportOk csvPaths force tables).2 =
      tables.filter (fun t => !(tableSucceeds exportOk csvPaths force t))) ∧
    (bulkOutcome exportOk csvPaths force tables = .allSucceeded ↔
      ∀ t ∈ tables, tableSucceeds exportOk csvPaths force t = true) ∧
    (bulkOutcome exportOk csvPaths force tables = .allFailed ↔
      (tables ≠ [] ∧ ∀ t ∈ tables, tableSucceeds exportOk csvPaths force t = false)) ∧
    (bulkOutcome exportOk csvPaths force tables = .partialSuccess ↔
      ((∃ t ∈ tables, tableSucceeds exportOk csvPaths force t = true) ∧
       (∃ t ∈ tables, tableSucceeds exportOk csvPaths force t = false))) := by
  have hperf := perform_bulk_export_eq exportOk csvPaths force tables
  have hout : bulkOutcome exportOk csvPaths force tables =
      runOutcome (tables.filter (tableSucceeds exportOk csvPaths force)).length
        tables.length := by
    rw [bulkOutcome, hperf]
  have hA : ∀ s n : Nat, (runOutcome s n = .allSucceeded ↔ s = n) := by
    intro s n
    unfold runOutcome
    by_cases hEq : s = n
    · simp [hEq]
    · by_cases hPos : s > 0 <;> simp [hEq, hPos]
  have hF : ∀ s n : Nat, (runOutcome s n = .allFailed ↔ (¬ s = n ∧ s = 0)) := by
    intro s n
    unfold runOutcome
    by_cases hEq : s = n
    · simp [hEq]
    · by_cases hPos : s > 0 <;> simp [hEq, hPos] <;> omega
  have hP : ∀ s n : Nat, (runOutcome s n = .partialSuccess ↔ (¬ s = n ∧ s > 0)) := by
    intro s n
    unfold runOutcome
    by_cases hEq : s = n
    · simp [hEq]
    · by_cases hPos : s > 0 <;> simp [hEq, hPos] <;> omega
  have hall : (tables.filter (tableSucceeds exportOk csvPaths force)).length =
      tables.length ↔ ∀ t ∈ tables, tableSucceeds exportOk csvPaths force t = true :=
    List.filter_length_eq_length
  have hzero : (tables.filter (tableSucceeds exportOk csvPaths force)).length = 0 ↔
      ∀ t ∈ tables, tableSucceeds exportOk csvPaths force t = false := by
    rw [List.length_eq_zero, List.filter_eq_nil_iff]
    constructor
    · intro h t ht
      have := h t ht
      cases hb : tableSucceeds exportOk csvPaths force t
      · rfl
      · exact absurd hb this
    · intro h t ht
      rw [h t ht]
      simp
  have hpos : 0 < (tables.filter (tableSucceeds exportOk csvPaths force)).length ↔
      ∃ t ∈ tables, tableSucceeds exportOk csvPaths force t = true := by
    rw [List.length_pos]
    constructor
    · intro h
      rcases List.exists_mem_of_ne_nil _ h with ⟨t, ht⟩
      have := List.mem_filter.mp ht
      exact ⟨t, this.1, this.2⟩
    · rintro ⟨t, ht, hs⟩
      intro hnil
      have : t ∈ tables.filter (tableSucceeds exportOk csvPaths force) :=
        List.mem_filter.mpr ⟨ht, hs⟩
      rw [hnil] at this
      simp at this
  refine ⟨by rw [hperf], ?_, ?_, ?_⟩
  · rw [hout, hA, hall]
  · rw [hout, hF]
    constructor
    · rintro ⟨hne, hz⟩
      refine ⟨?_, hzero.mp hz⟩
      intro hnil
      apply hne
      rw [hz, hnil]
      simp
    · rintro ⟨hne, hfail⟩
      have hz : (tables.filter (tableSucceeds exportOk csvPaths force)).length = 0 :=
        hzero.mpr hfail
      refine ⟨?_, hz⟩
      rw [hz]
      intro hlen
      exact hne (List.eq_nil_of_length_eq_zero hlen.symm)
  · rw [hout, hP]
    constructor
    · rintro ⟨hne, hgt⟩
      refine ⟨hpos.mp hgt, ?_⟩
      have : ¬ ∀ t ∈ tables, tableSucceeds exportOk csvPaths force t = true :=
        fun hallT => hne (hall.mpr hallT)
      rcases not_forall.mp this with ⟨t, hnt⟩
      rcases not_forall.mp hnt with ⟨ht, hns⟩
      refine ⟨t, ht, ?_⟩
      cases hb : tableSucceeds exportOk csvPaths force t
      · rfl
      · exact absurd hb hns
    · rintro ⟨⟨t1, ht1, hs1⟩, ⟨t2, ht2, hs2⟩⟩
      constructor
      · intro hEq
        have := hall.mp hEq t2 ht2
        rw [this] at hs2
        exact Bool.noConfusion hs2
      · exact hpos.mpr ⟨t1, ht1, hs1⟩

end Etl

namespace Etl

/-- C9 witness: the bulk-aggregate scenario of the spec — T1 and T2
succeed, T3 fails, the run reports partial success and names T3 in the
failure list. -/
theorem claim_C9_witness :
    (perform_bulk_export (fun t => t ≠ "T3") [] false ["T1", "T2", "T3"]).2 =
      ["T1", "T2", "T3"].filter
        (fun t => !(tableSucceeds (fun t => t ≠ "T3") [] false t)) ∧
    bulkOutcome (fun t => t ≠ "T3") [] false ["T1", "T2", "T3"] =
      RunOutcome.partialSuccess := by
  have h := claim_C9 (fun t => t ≠ "T3") [] false ["T1", "T2", "T3"]
  exact ⟨h.1, (h.2.2.2).mpr
    ⟨⟨"T1", by decide, by decide⟩, ⟨"T3", by decide, by decide⟩⟩⟩

/-- C10: after a string cast on a present column every cell of that column
is text — a missing cell becomes the literal text "nan" — so the column
has zero nulls, and a fill directive on the same column applied afterwards
within the same batch changes nothing. -/
theorem claim_C10 (t : Transform) (df : DataFrame)
    (htc : t.ttype = "type_cast") (hd : t.dtype = "str")
    (hc : df.columns.contains t.column = true) :
    (applyOneTransform t df).rows =
      df.rows.map (updateAt (df.columns.indexOf t.column) castStrCell) ∧
    castStrCell .null = .strV "nan" ∧
    (∀ r ∈ (applyOneTransform t df).rows, df.columns.indexOf t.column < r.length →
      (∃ s, cellAt (df.columns.indexOf t.column) r = .strV s) ∧
      (cellAt (df.columns.indexOf t.column) r).isNull = false) ∧
    (∀ tf : Transform, tf.ttype = "fill_na" → tf.column = t.column →
      applyOneTransform tf (applyOneTransform t df) = applyOneTransform t df) := by
  have hrows : (applyOneTransform t df).rows =
      df.rows.map (updateAt (df.columns.indexOf t.column) castStrCell) := by
    rw [applyOneTransform_str t df hc htc hd]
  refine ⟨hrows, rfl, ?_, ?_⟩
  · intro r hr hlt
    rw [hrows] at hr
    rcases List.mem_map.mp hr with ⟨r0, hr0, rfl⟩
    have hlt0 : df.columns.indexOf t.column < r0.length := by
      rw [← updateAt_length (df.columns.indexOf t.column) castStrCell r0]
      exact hlt
    rw [cellAt_updateAt _ _ _ hlt0]
    exact ⟨castStrCell_strV _, castStrCell_not_null _⟩
  · intro tf htf hcol
    have hcols : (applyOneTransform t df).columns = df.columns :=
      applyOneTransform_columns t df
    have hc' : (applyOneTransform t df).columns.contains tf.column = true := by
      rw [hcols, hcol]
      exact hc
    rw [applyOneTransform_fill tf _ hc' htf]
    have hj : (applyOneTransform t df).columns.indexOf tf.column =
        df.columns.indexOf t.column := by
      rw [hcols, hcol]
    have hfix : ∀ r0 : Row,
        updateAt (df.columns.indexOf t.column) (fillCell tf.value)
          (updateAt (df.columns.indexOf t.column) castStrCell r0) =
        updateAt (df.columns.indexOf t.column) castStrCell r0 := by
      intro r0
      by_cases hlt : df.columns.indexOf t.column < r0.length
      · apply updateAt_fix
        rw [cellAt_updateAt _ _ _ hlt]
        simp [fillCell, castStrCell_not_null]
      · apply updateAt_of_le_length
        rw [updateAt_length]
        omega
    have hmapfix : List.map (updateAt (df.columns.indexOf t.column) (fillCell tf.value))
        (applyOneTransform t df).rows = (applyOneTransform t df).rows := by
      rw [hrows, List.map_map]
      apply List.map_congr_left
      intro r0 _
      exact hfix r0
    rw [hj, hmapfix]

/-- C10 witness: casting `[null, 4]` to string yields `["nan", "4"]`, and
a subsequent fill on the same column changes nothing. -/
theorem claim_C10_witness :
    (applyOneTransform { ttype := "type_cast", column := "c", dtype := "str" }
        ⟨["c"], [[Cell.null], [Cell.intV 4]]⟩).rows =
      [[Cell.strV "nan"], [Cell.strV "4"]] ∧
    applyOneTransform { ttype := "fill_na", column := "c", value := "X" }
        (applyOneTransform { ttype := "type_cast", column := "c", dtype := "str" }
          ⟨["c"], [[Cell.null], [Cell.intV 4]]⟩) =
      applyOneTransform { ttype := "type_cast", column := "c", dtype := "str" }
        ⟨["c"], [[Cell.null], [Cell.intV 4]]⟩ := by
  have h := claim_C10 { ttype := "type_cast", column := "c", dtype := "str" }
    ⟨["c"], [[Cell.null], [Cell.intV 4]]⟩ rfl rfl (by decide)
  exact ⟨h.1.trans (by decide), h.2.2.2 _ rfl rfl⟩

end Etl
